import Mathlib

/-!
Shallow embedding of the client/monitor/tag state machine of a dwm fork
(src/dwm.c) and proofs about its specification claims.

The embedding follows the source functions of the variant cited by the
claims: the mode stack (`push_mode`, `pop_mode`) from the mode-stack
variant, and `applysizehints`, `resize`, `resizeclient`, `setfullscreen`,
`tile`, `view`, `tag`, `toggletag`, `sendmon`, `applyrules`,
`updatesizehints`, `focus`, `attach`, `attachstack`, `detachstack`,
`next_valid_monitor` and the monitor-removal loop of `updategeom` from the
index-based monitor-table variant.

Machine integers are modelled as `Int`/`Nat` (values stay far below the
32-bit range in every theorem below, so no wraparound is modelled except
where a comment notes it), C float values as `Rat` with truncation toward
zero at int conversions, and the monitor array as a flat index function
so that out-of-bounds accesses of the C code are expressible.
-/

set_option autoImplicit false

namespace Dwm

/-! ### Input mode stack (dwm.c, mode-stack variant)

The source declares `global int mode_stack[8]; global int mode_stack_top;`
and pushes with a bound check against the array length.  The backing
store is modelled as a flat index function `arr : Nat → Int` so that a
write one past the 8-entry array can be observed. -/

structure ModeStack where
  arr : Nat → Int
  top : Nat

/-- Length of the `mode_stack` array in the source: 8 entries, indices 0..7. -/
def modeStackLen : Nat := 8

/-- Embedding of `push_mode`: if `mode_stack_top < ArrayLength(mode_stack)`
then `++mode_stack_top; mode_stack[mode_stack_top] = mode_info_index;`.
The keyboard regrab and arrange side effects touch no mode-stack state. -/
def push_mode (s : ModeStack) (mode_info_index : Int) : ModeStack :=
  if s.top < modeStackLen then
    { arr := fun i => if i = s.top + 1 then mode_info_index else s.arr i,
      top := s.top + 1 }
  else s

/-- Embedding of `pop_mode`: if `mode_stack_top > 0` then `--mode_stack_top;`. -/
def pop_mode (s : ModeStack) : ModeStack :=
  if s.top > 0 then { s with top := s.top - 1 } else s

/-! ### Tag bitmasks (dwm.c `view`, `tag`, `toggletag`, `sendmon`, `applyrules`)

The config declares 9 tags, so `TagMask = (1 << 9) - 1 = 511`.  Tag
bitmasks are `unsigned int`; their 32-bit complement is used to state the
claim formula `tags & ~TagMask == 0`. -/

/-- Number of entries of the `tags[]` array in config.h. -/
def tagCount : Nat := 9

/-- The macro `TagMask = (1 << ArrayLength(tags)) - 1`. -/
def TagMask : Nat := (1 <<< tagCount) - 1

/-- The 32-bit complement `~TagMask` of the C expression `tags & ~TagMask`. -/
def notTagMask : Nat := (2 ^ 32 - 1) ^^^ TagMask

/-- Embedding of `view` restricted to the selected-tags field of the
selected monitor: `new_tags = arg->ui & TagMask;` and the bitmask is
assigned only when `new_tags` differs from the current value and is
nonzero.  The `focus`/`arrange` calls do not touch `selected_tags`. -/
def view (selected_tags : Nat) (arg_ui : Nat) : Nat :=
  let new_tags := arg_ui &&& TagMask
  if new_tags ≠ selected_tags then
    (if new_tags ≠ 0 then new_tags else selected_tags)
  else selected_tags

/-- Final line of `applyrules`:
`client->tags = client->tags & TagMask ? client->tags & TagMask : all_monitors[client->monitor].selected_tags;`
where `t` is the bitmask accumulated from matching rules. -/
def applyrules_tags (t : Nat) (monitor_selected_tags : Nat) : Nat :=
  if t &&& TagMask ≠ 0 then t &&& TagMask else monitor_selected_tags

/-- Tag field effect of `tag`: guarded by `arg->ui & TagMask`, assigns
`selected_client->tags = arg->ui & TagMask`. -/
def tag_tags (cur : Nat) (arg_ui : Nat) : Nat :=
  if arg_ui &&& TagMask ≠ 0 then arg_ui &&& TagMask else cur

/-- Tag field effect of `toggletag`: `newtags = tags ^ (arg->ui & TagMask)`,
assigned only when nonzero. -/
def toggletag_tags (cur : Nat) (arg_ui : Nat) : Nat :=
  if cur ^^^ (arg_ui &&& TagMask) ≠ 0 then cur ^^^ (arg_ui &&& TagMask) else cur

/-- Tag field effect of `sendmon`:
`client->tags = all_monitors[monitor_index].selected_tags`. -/
def sendmon_tags (target_selected_tags : Nat) : Nat := target_selected_tags

/-- The client tag invariant of the specification: nonzero and no bit
above the configured tag count (`c.tags & ~TagMask == 0` for 32-bit
masks). -/
def tagsInv (t : Nat) : Prop := t ≠ 0 ∧ t &&& notTagMask = 0

instance (t : Nat) : Decidable (tagsInv t) := by
  unfold tagsInv; infer_instance

/-! ### next_valid_monitor (dwm.c)

The C loop is
`int result = start_index; if (valid(start)) return start; ++result;`
`for (; result != start_index; ++result) { if (result == capacity) result = 0; if (valid(result)) break; } return result;`.
The monitor array validity bits are a flat function `valid : Nat → Bool`
(indices at or beyond the capacity model whatever memory sits past the
array).  The loop is embedded with explicit fuel; `none` means the fuel
ran out before the loop finished. -/

def nvm_loop (valid : Nat → Bool) (cap start : Nat) : Nat → Nat → Option Nat
  | 0, _ => none
  | fuel + 1, result =>
    if result = start then some result
    else
      let r := if result = cap then 0 else result
      if valid r then some r
      else nvm_loop valid cap start fuel (r + 1)

/-- Embedding of `next_valid_monitor`. -/
def next_valid_monitor (valid : Nat → Bool) (cap start fuel : Nat) : Option Nat :=
  if valid start then some start
  else nvm_loop valid cap start fuel (start + 1)

/-! ### Client and monitor geometry (dwm.c structs `Client`, `Monitor`)

Only the fields touched by the claims are kept.  The C float fields
`min_aspect`/`max_aspect`/`mfact` become `Rat`, with `cTruncQ` standing
for the C float-to-int conversion (truncation toward zero). -/

structure Client where
  x : Int
  y : Int
  width : Int
  height : Int
  oldx : Int
  oldy : Int
  old_width : Int
  old_height : Int
  base_width : Int
  base_height : Int
  inc_width : Int
  inc_height : Int
  max_width : Int
  max_height : Int
  min_width : Int
  min_height : Int
  min_aspect : Rat
  max_aspect : Rat
  border_width : Int
  old_border_width : Int
  tags : Nat
  isfixed : Bool
  isfloating : Bool
  isfullscreen : Bool
  oldstate : Bool
  monitor : Nat

/-- Geometry fields of a monitor slot used by the hints resolver and
`setfullscreen`. -/
structure MonitorG where
  screen_x : Int
  screen_y : Int
  screen_width : Int
  screen_height : Int
  window_x : Int
  window_y : Int
  window_width : Int
  window_height : Int

/-- C conversion of a nonnegative-or-negative rational to int: truncation
toward zero, as in `*width = *height * client->max_aspect + 0.5`. -/
def cTruncQ (q : Rat) : Int := if 0 ≤ q then q.floor else -((-q).floor)

/-- The macro `GappedClientWidth(Client)`:
`client->width + 2 * client->border_width + gap_size`. -/
def GappedClientWidth (gap_size : Int) (c : Client) : Int :=
  c.width + 2 * c.border_width + gap_size

/-- The macro `GappedClientHeight(Client)`. -/
def GappedClientHeight (gap_size : Int) (c : Client) : Int :=
  c.height + 2 * c.border_width + gap_size

/-- Position clamping of `applysizehints`: the interactive branch clamps
against the global screen, the non-interactive branch against the
window rectangle of the owning monitor.  `w` and `h` are the width and
height already clamped to a minimum of 1. -/
def clampPos (screen_width screen_height gap_size : Int) (mon : MonitorG)
    (c : Client) (x y w h : Int) (interact : Bool) : Int × Int :=
  if interact then
    let x1 := if x > screen_width then screen_width - GappedClientWidth gap_size c else x
    let y1 := if y > screen_height then screen_height - GappedClientHeight gap_size c else y
    let x2 := if x1 + w + 2 * c.border_width < 0 then 0 else x1
    let y2 := if y1 + h + 2 * c.border_width < 0 then 0 else y1
    (x2, y2)
  else
    let x1 := if x ≥ mon.window_x + mon.window_width then
                mon.window_x + mon.window_width - GappedClientWidth gap_size c else x
    let y1 := if y ≥ mon.window_y + mon.window_height then
                mon.window_y + mon.window_height - GappedClientHeight gap_size c else y
    let x2 := if x1 + w + 2 * c.border_width ≤ mon.window_x then mon.window_x else x1
    let y2 := if y1 + h + 2 * c.border_width ≤ mon.window_y then mon.window_y else y1
    (x2, y2)

/-- Core of the ICCCM block of `applysizehints` before the final min/max
clamps: base-size subtraction, aspect limits, base subtraction in the
`baseismin` case, and increment snapping, in source order.  The C int
remainder is `Int.tmod`. -/
def ash_core (c : Client) (w h : Int) : Int × Int :=
  let baseismin : Bool := (c.base_width == c.min_width) && (c.base_height == c.min_height)
  let w1 := if baseismin then w else w - c.base_width
  let h1 := if baseismin then h else h - c.base_height
  let p :=
    if 0 < c.min_aspect ∧ 0 < c.max_aspect then
      if c.max_aspect < (w1 : Rat) / (h1 : Rat) then
        (cTruncQ ((h1 : Rat) * c.max_aspect + 1 / 2), h1)
      else if c.min_aspect < (h1 : Rat) / (w1 : Rat) then
        (w1, cTruncQ ((w1 : Rat) * c.min_aspect + 1 / 2))
      else (w1, h1)
    else (w1, h1)
  let w2 := if baseismin then p.1 - c.base_width else p.1
  let h2 := if baseismin then p.2 - c.base_height else p.2
  let w3 := if c.inc_width ≠ 0 then w2 - Int.tmod w2 c.inc_width else w2
  let h3 := if c.inc_height ≠ 0 then h2 - Int.tmod h2 c.inc_height else h2
  (w3, h3)

/-- ICCCM block of `applysizehints`: `ash_core` followed by
`*width = Maximum(*width + base_width, min_width)` and the conditional
`Minimum` clamps against the maximum sizes. -/
def ash_hints (c : Client) (w h : Int) : Int × Int :=
  let core := ash_core c w h
  let w1 := max (core.1 + c.base_width) c.min_width
  let h1 := max (core.2 + c.base_height) c.min_height
  let w2 := if c.max_width ≠ 0 then min w1 c.max_width else w1
  let h2 := if c.max_height ≠ 0 then min h1 c.max_height else h1
  (w2, h2)

/-- Rectangle resolution of `applysizehints`: minimum size 1, position
clamping, bar-height minimum, then the ICCCM block when
`resizehints || client->isfloating`. -/
def ash_resolve (screen_width screen_height bar_height gap_size : Int)
    (resizehints : Bool) (mon : MonitorG) (c : Client)
    (x y w h : Int) (interact : Bool) : Int × Int × Int × Int :=
  let w1 := max 1 w
  let h1 := max 1 h
  let p := clampPos screen_width screen_height gap_size mon c x y w1 h1 interact
  let h2 := if h1 < bar_height then bar_height else h1
  let w2 := if w1 < bar_height then bar_height else w1
  let wh := if resizehints || c.isfloating then ash_hints c w2 h2 else (w2, h2)
  (p.1, p.2, wh.1, wh.2)

/-- Embedding of `applysizehints`: the resolved rectangle together with
the return value
`*x != client->x || *y != client->y || *width != client->width || *height != client->height`. -/
def applysizehints (screen_width screen_height bar_height gap_size : Int)
    (resizehints : Bool) (mon : MonitorG) (c : Client)
    (x y w h : Int) (interact : Bool) : (Int × Int × Int × Int) × Bool :=
  let r := ash_resolve screen_width screen_height bar_height gap_size
             resizehints mon c x y w h interact
  (r, decide (r.1 ≠ c.x ∨ r.2.1 ≠ c.y ∨ r.2.2.1 ≠ c.width ∨ r.2.2.2 ≠ c.height))

/-- Embedding of `resizeclient`: snapshots the previous geometry into the
old fields and stores the gap-adjusted rectangle
(`client->x = wc.x = x + gapoffset`, `client->width = wc.width = width - gapincr`
with `gapoffset = gap_size`, `gapincr = 2 * gap_size` for non-floating
clients and 0 for floating ones).  The monocle/single-client case of the
source additionally zeroes only the border width of the emitted
XConfigureWindow request, which stores no client state.  The
`XConfigureWindow`/`configure`/`XSync` calls are the protocol-level
reconfigure command; callers of this definition record that a command
was issued. -/
def resizeclient (gap_size : Int) (c : Client) (x y w h : Int) : Client :=
  let gapoffset : Int := if c.isfloating then 0 else gap_size
  let gapincr : Int := if c.isfloating then 0 else 2 * gap_size
  { c with
    oldx := c.x, x := x + gapoffset,
    oldy := c.y, y := y + gapoffset,
    old_width := c.width, width := w - gapincr,
    old_height := c.height, height := h - gapincr }

/-- Embedding of `resize`: `if (applysizehints(...)) resizeclient(...)`.
The boolean of the result records whether a protocol-level reconfigure
(`resizeclient`) was issued. -/
def resize (screen_width screen_height bar_height gap_size : Int)
    (resizehints : Bool) (mon : MonitorG) (c : Client)
    (x y w h : Int) (interact : Bool) : Client × Bool :=
  let a := applysizehints screen_width screen_height bar_height gap_size
             resizehints mon c x y w h interact
  if a.2 then (resizeclient gap_size c a.1.1 a.1.2.1 a.1.2.2.1 a.1.2.2.2, true)
  else (c, false)

/-- Embedding of `setfullscreen` on the client state.  Entering stores the
floating flag and border width, zeroes the border, forces floating and
applies the full screen rectangle through `resizeclient`; leaving
restores the flags and the old geometry and reapplies it through
`resizeclient`.  The trailing `arrange(client->monitor)` of the source
re-runs the layout for the whole monitor and is not part of this
client-local transition. -/
def setfullscreen (gap_size : Int) (mon : MonitorG) (c : Client)
    (fullscreen : Bool) : Client :=
  if fullscreen && !c.isfullscreen then
    let c1 := { c with
      isfullscreen := true,
      oldstate := c.isfloating,
      old_border_width := c.border_width,
      border_width := 0,
      isfloating := true }
    resizeclient gap_size c1 mon.screen_x mon.screen_y mon.screen_width mon.screen_height
  else if !fullscreen && c.isfullscreen then
    let c1 := { c with
      isfullscreen := false,
      isfloating := c.oldstate,
      border_width := c.old_border_width,
      x := c.oldx, y := c.oldy,
      width := c.old_width, height := c.old_height }
    resizeclient gap_size c1 c1.x c1.y c1.width c1.height
  else c

/-! ### Size hints (dwm.c `updatesizehints`, X11 `XSizeHints`) -/

/-- Flag bits of `XSizeHints.flags` as defined by X11. -/
def PSize : Nat := 8
def PMinSize : Nat := 16
def PMaxSize : Nat := 32
def PResizeInc : Nat := 64
def PAspect : Nat := 128
def PBaseSize : Nat := 256

structure XSizeHints where
  flags : Nat
  base_width : Int
  base_height : Int
  width_inc : Int
  height_inc : Int
  max_width : Int
  max_height : Int
  min_width : Int
  min_height : Int
  min_aspect_x : Int
  min_aspect_y : Int
  max_aspect_x : Int
  max_aspect_y : Int

/-- Embedding of `updatesizehints`.  `got` is whether `XGetWMNormalHints`
succeeded; on failure the source forces `size.flags = PSize`.  Each hint
field follows the flag-guarded assignment chain of the source and
`isfixed` is the final conjunction
`max_width && max_height && max_width == min_width && max_height == min_height`. -/
def updatesizehints (c : Client) (got : Bool) (size : XSizeHints) : Client :=
  let flags := if got then size.flags else PSize
  let bw := if flags &&& PBaseSize ≠ 0 then size.base_width
            else if flags &&& PMinSize ≠ 0 then size.min_width else 0
  let bh := if flags &&& PBaseSize ≠ 0 then size.base_height
            else if flags &&& PMinSize ≠ 0 then size.min_height else 0
  let iw := if flags &&& PResizeInc ≠ 0 then size.width_inc else 0
  let ih := if flags &&& PResizeInc ≠ 0 then size.height_inc else 0
  let mxw := if flags &&& PMaxSize ≠ 0 then size.max_width else 0
  let mxh := if flags &&& PMaxSize ≠ 0 then size.max_height else 0
  let mnw := if flags &&& PMinSize ≠ 0 then size.min_width
             else if flags &&& PBaseSize ≠ 0 then size.base_width else 0
  let mnh := if flags &&& PMinSize ≠ 0 then size.min_height
             else if flags &&& PBaseSize ≠ 0 then size.base_height else 0
  let mna : Rat := if flags &&& PAspect ≠ 0 then (size.min_aspect_y : Rat) / (size.min_aspect_x : Rat) else 0
  let mxa : Rat := if flags &&& PAspect ≠ 0 then (size.max_aspect_x : Rat) / (size.max_aspect_y : Rat) else 0
  { c with
    base_width := bw, base_height := bh,
    inc_width := iw, inc_height := ih,
    max_width := mxw, max_height := mxh,
    min_width := mnw, min_height := mnh,
    min_aspect := mna, max_aspect := mxa,
    isfixed := decide (mxw ≠ 0 ∧ mxh ≠ 0 ∧ mxw = mnw ∧ mxh = mnh) }

/-- Floating forcing of `manage`:
`if (!client->isfloating) client->isfloating = client->oldstate = trans != None || client->isfixed;`. -/
def manage_floating (trans : Bool) (c : Client) : Client :=
  if c.isfloating then c
  else { c with isfloating := trans || c.isfixed, oldstate := trans || c.isfixed }

/-! ### Tiled layout (dwm.c `tile`)

`tile` counts the visible non-floating clients, lets the first fill the
window rectangle when alone, and otherwise gives the head a master
column of width `window_width * mfact` and stacks the rest with the
fixed share `height = (window_height - gap_size) / (num_clients - 1)`,
advancing `ty` by `height` while `ty + height < window_height`.  The
division runs in C unsigned arithmetic, modelled by `Int.toNat` and
`Nat` division (faithful while `gap_size <= window_height`).  Clients
are represented by their border widths, in `nexttiled` order; the result
lists the `(x, y, width, height)` arguments of the emitted `resize`
calls. -/

def tileStackLoop (wx wy ww wh gap mw height : Int) :
    Int → List Int → List (Int × Int × Int × Int)
  | _, [] => []
  | ty, bw :: rest =>
    (wx + mw, wy + ty, ww - mw - 2 * bw, height - 2 * bw + gap) ::
      tileStackLoop wx wy ww wh gap mw height
        (if ty + height < wh then ty + height else ty) rest

/-- Embedding of `tile` (index-based variant, master on the left). -/
def tile (wx wy ww wh : Int) (mfact : Rat) (gap_size : Int)
    (bws : List Int) : List (Int × Int × Int × Int) :=
  match bws with
  | [] => []
  | [_] => [(wx, wy, ww, wh)]
  | bw0 :: rest =>
    let master_width : Int := cTruncQ ((ww : Rat) * mfact)
    let height : Int := ((wh - gap_size).toNat / rest.length : Nat)
    (wx, wy, master_width - 2 * bw0, wh - 2 * bw0) ::
      tileStackLoop wx wy ww wh gap_size (master_width - gap_size) height 0 rest

/-- Heights of the stack-column clients of a `tile` result: the height
arguments of all resize calls after the master. -/
def stackHeights (rects : List (Int × Int × Int × Int)) : List Int :=
  (rects.drop 1).map fun r => r.2.2.2

/-! ### Window-manager state (client registry, focus, monitor removal)

Linked client lists become per-monitor `List Nat` of client identifiers;
per-client fields live in index functions.  `valid` is a flat function
like in `next_valid_monitor`, so reads past the monitor array are
expressible. -/

structure WMState where
  cap : Nat
  valid : Nat → Bool
  selected_monitor : Nat
  clients : Nat → List Nat
  stack : Nat → List Nat
  selected_client : Nat → Option Nat
  selected_tags : Nat → Nat
  cmon : Nat → Nat
  ctags : Nat → Nat
  curgent : Nat → Bool

/-- The macro `IsVisible(Client)`:
`client->tags & all_monitors[client->monitor].selected_tags`. -/
def IsVisible (s : WMState) (c : Nat) : Bool :=
  s.ctags c &&& s.selected_tags (s.cmon c) != 0

/-- Embedding of `attach`: head insertion into the membership list of the
owning monitor. -/
def attach (s : WMState) (c : Nat) : WMState :=
  { s with clients := fun i =>
      if i = s.cmon c then c :: s.clients (s.cmon c) else s.clients i }

/-- Embedding of `attachstack`: head insertion into the focus-stack list
of the owning monitor. -/
def attachstack (s : WMState) (c : Nat) : WMState :=
  { s with stack := fun i =>
      if i = s.cmon c then c :: s.stack (s.cmon c) else s.stack i }

/-- Embedding of `detachstack`: unlink the first occurrence of the client
from the focus-stack of its monitor, and when it was the selected client
of that monitor, scan the updated stack forward for the first visible
client as the new selection. -/
def detachstack (s : WMState) (c : Nat) : WMState :=
  let m := s.cmon c
  let newstack := (s.stack m).erase c
  { s with
    stack := fun i => if i = m then newstack else s.stack i,
    selected_client := fun i =>
      if i = m ∧ s.selected_client m = some c then
        newstack.find? fun t => IsVisible s t
      else s.selected_client i }

/-- Embedding of `focus`.  With no client, or an invisible one, the
focus-stack of the selected monitor is scanned for the first visible
client; a found client switches the selected monitor to its own, has its
urgency cleared, moves to the head of its focus-stack and becomes the
selected client; otherwise the selection is cleared.  `unfocus`,
`grabbuttons`, border colors and `setfocus` touch only the display
server. -/
def focus (s : WMState) (copt : Option Nat) : WMState :=
  let cand : Option Nat :=
    match copt with
    | some c =>
      if IsVisible s c then some c
      else (s.stack s.selected_monitor).find? fun t => IsVisible s t
    | none => (s.stack s.selected_monitor).find? fun t => IsVisible s t
  match cand with
  | some c =>
    let s1 := { s with
      selected_monitor := if s.cmon c ≠ s.selected_monitor then s.cmon c else s.selected_monitor,
      curgent := fun t => if s.curgent c && (t == c) then false else s.curgent t }
    let s2 := detachstack s1 c
    let s3 := attachstack s2 c
    { s3 with selected_client := fun i =>
        if i = s3.selected_monitor then some c else s3.selected_client i }
  | none =>
    { s with selected_client := fun i =>
        if i = s.selected_monitor then none else s.selected_client i }

/-! ### Monitor removal (dwm.c `updategeom`, fewer screens than monitors)

For each excess monitor the source picks the last valid slot, then while
its membership list is nonempty pops the head client, marks the slot
invalid, detaches the client from the focus-stack, reassigns
`client->monitor = next_valid_monitor(client->monitor + 1)` and runs
`attach`/`attachstack`; afterwards the selected monitor is retargeted if
needed and `cleanup_monitors` zeroes the slot. -/

/-- Downward scan
`for (monitor_index = capacity - 1; Between(monitor_index, 0, capacity-1) && !valid; --monitor_index);`
(the all-invalid case would leave the C loop at index -1; it is not
reached in the theorems below). -/
def last_valid_scan (valid : Nat → Bool) : Nat → Nat
  | 0 => 0
  | i + 1 => if valid (i + 1) then i + 1 else last_valid_scan valid i

/-- One iteration of the migration while-loop for head client `c` with
remaining list `rest`.  The fuel handed to `next_valid_monitor` is
`cap + 2`; a fuel exhaustion (the C loop not terminating) leaves the
client where it is. -/
def migrate_step (s : WMState) (m c : Nat) (rest : List Nat) : WMState :=
  let s1 := { s with
    clients := fun i => if i = m then rest else s.clients i,
    valid := fun i => if i = m then false else s.valid i }
  let s2 := detachstack s1 c
  let t := (next_valid_monitor s2.valid s2.cap (s2.cmon c + 1) (s2.cap + 2)).getD (s2.cmon c)
  let s3 := { s2 with cmon := fun d => if d = c then t else s2.cmon d }
  attachstack (attach s3 c) c

/-- The migration while-loop, with fuel (one unit per migrated client). -/
def migrate_loop (m : Nat) : Nat → WMState → WMState
  | 0, s => s
  | fuel + 1, s =>
    match s.clients m with
    | [] => s
    | c :: rest => migrate_loop m fuel (migrate_step s m c rest)

/-- Embedding of `cleanup_monitors`: the slot is overwritten with a
zeroed monitor record. -/
def cleanup_monitors (s : WMState) (m : Nat) : WMState :=
  { s with
    valid := fun i => if i = m then false else s.valid i,
    clients := fun i => if i = m then [] else s.clients i,
    stack := fun i => if i = m then [] else s.stack i,
    selected_client := fun i => if i = m then none else s.selected_client i,
    selected_tags := fun i => if i = m then 0 else s.selected_tags i }

/-- One iteration of the excess-monitor loop of `updategeom`: pick the
last valid slot, migrate its clients, retarget the selected monitor if
it was the removed one, and zero the slot. -/
def remove_one_excess (s : WMState) : WMState :=
  let m := last_valid_scan s.valid (s.cap - 1)
  let s1 := migrate_loop m (s.clients m).length s
  let s2 := if m = s1.selected_monitor then
      { s1 with selected_monitor := (next_valid_monitor s1.valid s1.cap 0 (s1.cap + 2)).getD 0 }
    else s1
  cleanup_monitors s2 m

/-! ## Theorems -/

/-- C1: the claim says a push onto a full 8-entry mode stack is ignored
and the top index stays within the array bounds.  The code disagrees:
with the base frame at index 0 and the top index at 7 the stack holds
its full 8 entries, yet the guard `mode_stack_top < ArrayLength(mode_stack)`
still passes, the top index becomes 8 and the pushed value is written to
`mode_stack[8]`, one slot past the 8-entry array (observed here in the
flat-memory model).  The guard is off by one; the bounded no-op intent
of the comment `I doubt that I will have more than 8 modes stacked` and
of the spec is violated. -/
theorem push_mode_writes_out_of_bounds :
    (push_mode { arr := fun _ => 0, top := 7 } 3).top = 8 ∧
    (push_mode { arr := fun _ => 0, top := 7 } 3).arr 8 = 3 ∧
    ¬ (push_mode { arr := fun _ => 0, top := 7 } 3).top < modeStackLen := by
  refine ⟨by decide, ?_, by decide⟩
  show (if (8 : Nat) = 7 + 1 then (3 : Int) else 0) = 3
  decide

/-- C4: `view` with a tag-mask-filtered argument of zero leaves the
selected-tags bitmask unchanged, and no call to `view` ever turns a
nonzero selected-tags bitmask into zero. -/
theorem view_zero_is_noop (st arg : Nat) :
    (arg &&& TagMask = 0 → view st arg = st) ∧ (st ≠ 0 → view st arg ≠ 0) := by
  unfold view
  dsimp only
  constructor
  · intro h0
    simp [h0]
  · intro hst
    split
    · split
      · assumption
      · assumption
    · assumption

theorem view_zero_is_noop_witness : view 1 0 = 1 ∧ view 1 0 ≠ 0 :=
  ⟨(view_zero_is_noop 1 0).1 (by decide), (view_zero_is_noop 1 0).2 (by decide)⟩

lemma and_TagMask_notTagMask (a : Nat) : (a &&& TagMask) &&& notTagMask = 0 := by
  rw [Nat.and_assoc]
  have h : TagMask &&& notTagMask = 0 := by decide
  rw [h, Nat.and_zero]

/-- C5: each tag mutation reachable from the public action set (rule
matching at client creation, `tag`, `toggletag`, migration through
`sendmon`) leaves the client tag bitmask nonzero and inside the
configured mask, given that the involved monitor selected-tags bitmask
and the previous client bitmask satisfy the same invariant. -/
theorem client_tags_invariant (t arg cur montags : Nat)
    (hmon : tagsInv montags) (hcur : tagsInv cur) :
    tagsInv (applyrules_tags t montags) ∧ tagsInv (tag_tags cur arg) ∧
      tagsInv (toggletag_tags cur arg) ∧ tagsInv (sendmon_tags montags) := by
  refine ⟨?_, ?_, ?_, hmon⟩
  · unfold applyrules_tags
    split
    · exact ⟨by assumption, and_TagMask_notTagMask t⟩
    · exact hmon
  · unfold tag_tags
    split
    · exact ⟨by assumption, and_TagMask_notTagMask arg⟩
    · exact hcur
  · unfold toggletag_tags
    split
    · refine ⟨by assumption, ?_⟩
      rw [Nat.and_xor_distrib_right, hcur.2, and_TagMask_notTagMask, Nat.zero_xor]
    · exact hcur

theorem client_tags_invariant_witness :
    tagsInv (applyrules_tags 0 1) ∧ tagsInv (tag_tags 1 0) ∧
      tagsInv (toggletag_tags 1 0) ∧ tagsInv (sendmon_tags 1) :=
  client_tags_invariant 0 0 1 1 (by decide) (by decide)

lemma tileStackLoop_heights (wx wy ww wh gap mw height : Int) :
    ∀ (k : Nat) (ty : Int),
      (tileStackLoop wx wy ww wh gap mw height ty (List.replicate k 0)).map
          (fun r => r.2.2.2) = List.replicate k (height + gap) := by
  intro k
  induction k with
  | zero => intro ty; rfl
  | succ n ih =>
    intro ty
    simp only [List.replicate_succ, tileStackLoop, List.map_cons, ih]
    simp

/-- C3 counterexample: on a monitor of window height 500 with gap 0 and
borderless clients, 10 visible tiled clients give the 9 stack clients a
fixed share of `500 / 9 = 55` each; the heights sum to 495, leaving a
5-pixel shortfall, more than one rounding unit.  The cited `tile` does
not carry a running remainder. -/
theorem tile_heights_counterexample :
    (stackHeights (tile 0 0 1000 500 55 0 (List.replicate 10 0))).sum = 495 ∧
      ¬ ((500 : Int) - (stackHeights (tile 0 0 1000 500 55 0 (List.replicate 10 0))).sum ≤ 1) := by
  decide

/-- C3 amended: with gap 0 and borderless clients, the N-1 stack clients
each receive the identical integer share `H / (N-1)` (no remainder is
carried), so the heights never overflow past H and fall short of H by
`H mod (N-1)`, which is below N-2; the within-one-rounding-unit bound of
the claim holds only for N at most 3. -/
theorem tile_stack_heights_sum (wx wy ww wh : Int) (mfact : Rat) (n : Nat)
    (h2 : 2 ≤ n) (hwh : 0 ≤ wh) :
    (stackHeights (tile wx wy ww wh mfact 0 (List.replicate n 0))).sum ≤ wh ∧
      wh - (stackHeights (tile wx wy ww wh mfact 0 (List.replicate n 0))).sum < (n : Int) - 1 ∧
      (n ≤ 3 → wh - (stackHeights (tile wx wy ww wh mfact 0 (List.replicate n 0))).sum ≤ 1) := by
  obtain ⟨k, rfl⟩ : ∃ k, n = k + 2 := ⟨n - 2, by omega⟩
  simp only [List.replicate_succ, tile, stackHeights, List.drop_succ_cons, List.drop_zero,
    List.length_cons, List.length_replicate]
  rw [show (0 : Int) :: List.replicate k 0 = List.replicate (k + 1) (0 : Int) from rfl]
  rw [tileStackLoop_heights]
  rw [List.sum_replicate]
  simp only [sub_zero, add_zero, nsmul_eq_mul]
  have h0 : 0 < k + 1 := Nat.succ_pos k
  have hmod : wh.toNat % (k + 1) < k + 1 := Nat.mod_lt _ h0
  have hdm : (k + 1) * (wh.toNat / (k + 1)) + wh.toNat % (k + 1) = wh.toNat :=
    Nat.div_add_mod _ _
  have htn : ((wh.toNat : Int)) = wh := Int.toNat_of_nonneg hwh
  have key : ((k + 1 : Nat) : Int) * ((wh.toNat / (k + 1) : Nat) : Int)
      = (((k + 1) * (wh.toNat / (k + 1)) : Nat) : Int) := by push_cast; ring
  rw [key]
  generalize hP : ((k + 1) * (wh.toNat / (k + 1)) : Nat) = P at hdm ⊢
  omega

lemma resizeclient_hint_fields (g : Int) (c : Client) (x y w h : Int) :
    (resizeclient g c x y w h).base_width = c.base_width ∧
    (resizeclient g c x y w h).base_height = c.base_height ∧
    (resizeclient g c x y w h).min_width = c.min_width ∧
    (resizeclient g c x y w h).min_height = c.min_height ∧
    (resizeclient g c x y w h).max_width = c.max_width ∧
    (resizeclient g c x y w h).max_height = c.max_height ∧
    (resizeclient g c x y w h).inc_width = c.inc_width ∧
    (resizeclient g c x y w h).inc_height = c.inc_height ∧
    (resizeclient g c x y w h).min_aspect = c.min_aspect ∧
    (resizeclient g c x y w h).max_aspect = c.max_aspect ∧
    (resizeclient g c x y w h).border_width = c.border_width ∧
    (resizeclient g c x y w h).isfloating = c.isfloating :=
  ⟨rfl, rfl, rfl, rfl, rfl, rfl, rfl, rfl, rfl, rfl, rfl, rfl⟩

lemma resizeclient_floating_geom (g : Int) (c : Client) (x y w h : Int)
    (hfl : c.isfloating = true) :
    (resizeclient g c x y w h).x = x ∧ (resizeclient g c x y w h).y = y ∧
    (resizeclient g c x y w h).width = w ∧ (resizeclient g c x y w h).height = h := by
  unfold resizeclient
  simp [hfl]

lemma clampPos_in_range (sw sh g : Int) (mon : MonitorG) (c : Client) (x y w h : Int)
    (hx1 : x < mon.window_x + mon.window_width)
    (hy1 : y < mon.window_y + mon.window_height)
    (hx2 : mon.window_x < x + w + 2 * c.border_width)
    (hy2 : mon.window_y < y + h + 2 * c.border_width) :
    clampPos sw sh g mon c x y w h false = (x, y) := by
  unfold clampPos
  rw [if_neg Bool.false_ne_true]
  dsimp only
  rw [if_neg (by omega : ¬ x ≥ mon.window_x + mon.window_width),
    if_neg (by omega : ¬ y ≥ mon.window_y + mon.window_height),
    if_neg (by omega : ¬ x + w + 2 * c.border_width ≤ mon.window_x),
    if_neg (by omega : ¬ y + h + 2 * c.border_width ≤ mon.window_y)]

lemma ash_hints_client_congr (c d : Client) (w h : Int)
    (h1 : d.base_width = c.base_width) (h2 : d.base_height = c.base_height)
    (h3 : d.min_width = c.min_width) (h4 : d.min_height = c.min_height)
    (h5 : d.max_width = c.max_width) (h6 : d.max_height = c.max_height)
    (h7 : d.inc_width = c.inc_width) (h8 : d.inc_height = c.inc_height)
    (h9 : d.min_aspect = c.min_aspect) (h10 : d.max_aspect = c.max_aspect) :
    ash_hints d w h = ash_hints c w h := by
  unfold ash_hints ash_core
  rw [h1, h2, h3, h4, h5, h6, h7, h8, h9, h10]

lemma ash_resolve_in_range (sw sh bh g : Int) (rh : Bool) (mon : MonitorG)
    (c : Client) (x y w h : Int)
    (hfl : c.isfloating = true)
    (hx1 : x < mon.window_x + mon.window_width)
    (hy1 : y < mon.window_y + mon.window_height)
    (hx2 : mon.window_x < x + max 1 w + 2 * c.border_width)
    (hy2 : mon.window_y < y + max 1 h + 2 * c.border_width) :
    ash_resolve sw sh bh g rh mon c x y w h false =
      (x, y,
       (ash_hints c (if max 1 w < bh then bh else max 1 w)
         (if max 1 h < bh then bh else max 1 h)).1,
       (ash_hints c (if max 1 w < bh then bh else max 1 w)
         (if max 1 h < bh then bh else max 1 h)).2) := by
  unfold ash_resolve
  dsimp only
  rw [clampPos_in_range sw sh g mon c x y (max 1 w) (max 1 h) hx1 hy1 hx2 hy2]
  rw [hfl, Bool.or_true, if_pos rfl]

/-- C2 counterexample: with the default `gap_size = 6` of config.h and a
non-floating client, a second `resize` with identical arguments issues a
second protocol-level reconfigure.  `resizeclient` stores the resolved
rectangle offset by the gap (`x + gapoffset`, `width - gapincr`), so
`applysizehints` compares the gap-free resolved rectangle against the
gap-adjusted stored geometry and reports a difference again. -/
theorem resize_not_idempotent :
    (resize 1920 1080 20 6 true
      { screen_x := 0, screen_y := 0, screen_width := 1920, screen_height := 1080,
        window_x := 0, window_y := 0, window_width := 1000, window_height := 480 }
      { x := 5, y := 5, width := 50, height := 50,
        oldx := 0, oldy := 0, old_width := 0, old_height := 0,
        base_width := 0, base_height := 0, inc_width := 0, inc_height := 0,
        max_width := 0, max_height := 0, min_width := 0, min_height := 0,
        min_aspect := 0, max_aspect := 0, border_width := 0, old_border_width := 0,
        tags := 1, isfixed := false, isfloating := false, isfullscreen := false,
        oldstate := false, monitor := 0 }
      0 0 100 100 false).2 = true ∧
    (resize 1920 1080 20 6 true
      { screen_x := 0, screen_y := 0, screen_width := 1920, screen_height := 1080,
        window_x := 0, window_y := 0, window_width := 1000, window_height := 480 }
      (resize 1920 1080 20 6 true
        { screen_x := 0, screen_y := 0, screen_width := 1920, screen_height := 1080,
          window_x := 0, window_y := 0, window_width := 1000, window_height := 480 }
        { x := 5, y := 5, width := 50, height := 50,
          oldx := 0, oldy := 0, old_width := 0, old_height := 0,
          base_width := 0, base_height := 0, inc_width := 0, inc_height := 0,
          max_width := 0, max_height := 0, min_width := 0, min_height := 0,
          min_aspect := 0, max_aspect := 0, border_width := 0, old_border_width := 0,
          tags := 1, isfixed := false, isfloating := false, isfullscreen := false,
          oldstate := false, monitor := 0 }
        0 0 100 100 false).1
      0 0 100 100 false).2 = true := by
  constructor <;> decide

/-- C2 amended: the second identical `resize` issues no reconfigure
provided the stored geometry after the first call equals the resolved
rectangle, which holds for floating clients (where `resizeclient` adds
no gap offset), for non-interactive requests whose position needs no
clamping; for non-floating clients with a positive gap the stored
geometry is gap-shifted and the second identical call reconfigures
again. -/
theorem resize_idempotent_floating (sw sh bh g : Int) (rh : Bool) (mon : MonitorG)
    (c : Client) (x y w h : Int)
    (hfl : c.isfloating = true)
    (hx1 : x < mon.window_x + mon.window_width)
    (hy1 : y < mon.window_y + mon.window_height)
    (hx2 : mon.window_x < x + max 1 w + 2 * c.border_width)
    (hy2 : mon.window_y < y + max 1 h + 2 * c.border_width) :
    resize sw sh bh g rh mon (resize sw sh bh g rh mon c x y w h false).1 x y w h false
      = ((resize sw sh bh g rh mon c x y w h false).1, false) := by
  have hres := ash_resolve_in_range sw sh bh g rh mon c x y w h hfl hx1 hy1 hx2 hy2
  generalize hWH : ash_hints c (if max 1 w < bh then bh else max 1 w)
      (if max 1 h < bh then bh else max 1 h) = WH at hres
  obtain ⟨W, H⟩ := WH
  obtain ⟨hb1, hb2, hb3, hb4, hb5, hb6, hb7, hb8, hb9, hb10, hbw, hbf⟩ :=
    resizeclient_hint_fields g c x y W H
  obtain ⟨hdx, hdy, hdw, hdh⟩ := resizeclient_floating_geom g c x y W H hfl
  unfold resize applysizehints
  dsimp only
  rw [hres]
  dsimp only
  by_cases hch : x = c.x ∧ y = c.y ∧ W = c.width ∧ H = c.height
  · have hdec : decide (x ≠ c.x ∨ y ≠ c.y ∨ W ≠ c.width ∨ H ≠ c.height) = false := by
      simp [hch.1, hch.2.1, hch.2.2.1, hch.2.2.2]
    rw [hdec, if_neg Bool.false_ne_true]
    dsimp only
    rw [hres, hdec, if_neg Bool.false_ne_true]
  · have hdec : decide (x ≠ c.x ∨ y ≠ c.y ∨ W ≠ c.width ∨ H ≠ c.height) = true := by
      rw [decide_eq_true_eq]
      by_contra hcon
      push_neg at hcon
      exact hch hcon
    rw [hdec, if_pos rfl]
    dsimp only
    have hres2 := ash_resolve_in_range sw sh bh g rh mon (resizeclient g c x y W H)
      x y w h (by rw [hbf, hfl]) hx1 hy1 (by rw [hbw]; exact hx2) (by rw [hbw]; exact hy2)
    rw [ash_hints_client_congr c (resizeclient g c x y W H) _ _
      hb1 hb2 hb3 hb4 hb5 hb6 hb7 hb8 hb9 hb10, hWH] at hres2
    rw [hres2]
    dsimp only
    have hdec2 : decide (x ≠ (resizeclient g c x y W H).x ∨
        y ≠ (resizeclient g c x y W H).y ∨
        W ≠ (resizeclient g c x y W H).width ∨
        H ≠ (resizeclient g c x y W H).height) = false := by
      simp [hdx, hdy, hdw, hdh]
    rw [hdec2, if_neg Bool.false_ne_true]

theorem resize_idempotent_floating_witness :
    resize 1920 1080 20 6 true
      { screen_x := 0, screen_y := 0, screen_width := 1920, screen_height := 1080,
        window_x := 0, window_y := 0, window_width := 1000, window_height := 480 }
      (resize 1920 1080 20 6 true
        { screen_x := 0, screen_y := 0, screen_width := 1920, screen_height := 1080,
          window_x := 0, window_y := 0, window_width := 1000, window_height := 480 }
        { x := 5, y := 5, width := 50, height := 50,
          oldx := 0, oldy := 0, old_width := 0, old_height := 0,
          base_width := 0, base_height := 0, inc_width := 0, inc_height := 0,
          max_width := 0, max_height := 0, min_width := 0, min_height := 0,
          min_aspect := 0, max_aspect := 0, border_width := 0, old_border_width := 0,
          tags := 1, isfixed := false, isfloating := true, isfullscreen := false,
          oldstate := false, monitor := 0 }
        10 10 100 100 false).1
      10 10 100 100 false
    = ((resize 1920 1080 20 6 true
        { screen_x := 0, screen_y := 0, screen_width := 1920, screen_height := 1080,
          window_x := 0, window_y := 0, window_width := 1000, window_height := 480 }
        { x := 5, y := 5, width := 50, height := 50,
          oldx := 0, oldy := 0, old_width := 0, old_height := 0,
          base_width := 0, base_height := 0, inc_width := 0, inc_height := 0,
          max_width := 0, max_height := 0, min_width := 0, min_height := 0,
          min_aspect := 0, max_aspect := 0, border_width := 0, old_border_width := 0,
          tags := 1, isfixed := false, isfloating := true, isfullscreen := false,
          oldstate := false, monitor := 0 }
        10 10 100 100 false).1, false) :=
  resize_idempotent_floating 1920 1080 20 6 true _ _ 10 10 100 100
    rfl (by decide) (by decide) (by decide) (by decide)

lemma ash_hints_pinned (c : Client) (w h : Int)
    (h1 : c.min_width = c.max_width) (h2 : c.max_width ≠ 0)
    (h3 : c.min_height = c.max_height) (h4 : c.max_height ≠ 0) :
    ash_hints c w h = (c.max_width, c.max_height) := by
  unfold ash_hints
  dsimp only
  rw [if_pos h2, if_pos h4, h1, h3]
  have hmm : ∀ a M : Int, min (max a M) M = M := fun a M =>
    min_eq_right (le_max_right a M)
  rw [hmm, hmm]

lemma manage_floating_hint_fields (trans : Bool) (c : Client) :
    (manage_floating trans c).min_width = c.min_width ∧
    (manage_floating trans c).max_width = c.max_width ∧
    (manage_floating trans c).min_height = c.min_height ∧
    (manage_floating trans c).max_height = c.max_height := by
  unfold manage_floating
  split <;> exact ⟨rfl, rfl, rfl, rfl⟩

/-- C6: a client whose size hints carry PMinSize and PMaxSize with
min and max width 200 and min and max height 100 is reported fixed by
`updatesizehints`; `manage` then forces such a client floating, and for
every requested rectangle and interactivity flag `applysizehints`
resolves the size to exactly 200 by 100 (the final min/max clamps pin
the size whatever the base, increment and aspect hints did before). -/
theorem fixed_client_pinned (c : Client) (size : XSizeHints) (trans : Bool)
    (mon : MonitorG) (sw sh bh g : Int) (rh : Bool) (x y w h : Int) (interact : Bool)
    (hfmin : size.flags &&& PMinSize ≠ 0) (hfmax : size.flags &&& PMaxSize ≠ 0)
    (hminw : size.min_width = 200) (hmaxw : size.max_width = 200)
    (hminh : size.min_height = 100) (hmaxh : size.max_height = 100) :
    (updatesizehints c true size).isfixed = true ∧
    (manage_floating trans (updatesizehints c true size)).isfloating = true ∧
    (applysizehints sw sh bh g rh mon (manage_floating trans (updatesizehints c true size))
      x y w h interact).1.2.2.1 = 200 ∧
    (applysizehints sw sh bh g rh mon (manage_floating trans (updatesizehints c true size))
      x y w h interact).1.2.2.2 = 100 := by
  have hfix : (updatesizehints c true size).isfixed = true := by
    simp [updatesizehints, hfmin, hfmax, hminw, hmaxw, hminh, hmaxh]
  have hmnw : (updatesizehints c true size).min_width = 200 := by
    simp [updatesizehints, hfmin, hminw]
  have hmxw : (updatesizehints c true size).max_width = 200 := by
    simp [updatesizehints, hfmax, hmaxw]
  have hmnh : (updatesizehints c true size).min_height = 100 := by
    simp [updatesizehints, hfmin, hminh]
  have hmxh : (updatesizehints c true size).max_height = 100 := by
    simp [updatesizehints, hfmax, hmaxh]
  have hff : (manage_floating trans (updatesizehints c true size)).isfloating = true := by
    unfold manage_floating
    split
    · assumption
    · rw [hfix, Bool.or_true]
  obtain ⟨hp1, hp2, hp3, hp4⟩ := manage_floating_hint_fields trans (updatesizehints c true size)
  have hpin : ash_hints (manage_floating trans (updatesizehints c true size))
      (if max 1 w < bh then bh else max 1 w) (if max 1 h < bh then bh else max 1 h)
      = (200, 100) := by
    rw [ash_hints_pinned]
    · rw [hp2, hp4, hmxw, hmxh]
    · rw [hp1, hp2, hmnw, hmxw]
    · rw [hp2, hmxw]; decide
    · rw [hp3, hp4, hmnh, hmxh]
    · rw [hp4, hmxh]; decide
  refine ⟨hfix, hff, ?_, ?_⟩ <;>
  · unfold applysizehints ash_resolve
    dsimp only
    rw [hff, Bool.or_true, if_pos rfl, hpin]

theorem fixed_client_pinned_witness :
    (updatesizehints
      { x := 0, y := 0, width := 30, height := 30,
        oldx := 0, oldy := 0, old_width := 0, old_height := 0,
        base_width := 0, base_height := 0, inc_width := 0, inc_height := 0,
        max_width := 0, max_height := 0, min_width := 0, min_height := 0,
        min_aspect := 0, max_aspect := 0, border_width := 1, old_border_width := 0,
        tags := 1, isfixed := false, isfloating := false, isfullscreen := false,
        oldstate := false, monitor := 0 } true
      { flags := 48, base_width := 0, base_height := 0, width_inc := 0, height_inc := 0,
        max_width := 200, max_height := 100, min_width := 200, min_height := 100,
        min_aspect_x := 0, min_aspect_y := 0, max_aspect_x := 0, max_aspect_y := 0 }).isfixed
      = true ∧
    (manage_floating false (updatesizehints
      { x := 0, y := 0, width := 30, height := 30,
        oldx := 0, oldy := 0, old_width := 0, old_height := 0,
        base_width := 0, base_height := 0, inc_width := 0, inc_height := 0,
        max_width := 0, max_height := 0, min_width := 0, min_height := 0,
        min_aspect := 0, max_aspect := 0, border_width := 1, old_border_width := 0,
        tags := 1, isfixed := false, isfloating := false, isfullscreen := false,
        oldstate := false, monitor := 0 } true
      { flags := 48, base_width := 0, base_height := 0, width_inc := 0, height_inc := 0,
        max_width := 200, max_height := 100, min_width := 200, min_height := 100,
        min_aspect_x := 0, min_aspect_y := 0, max_aspect_x := 0, max_aspect_y := 0 })).isfloating
      = true ∧
    (applysizehints 1920 1080 20 6 true
      { screen_x := 0, screen_y := 0, screen_width := 1920, screen_height := 1080,
        window_x := 0, window_y := 0, window_width := 1000, window_height := 480 }
      (manage_floating false (updatesizehints
        { x := 0, y := 0, width := 30, height := 30,
          oldx := 0, oldy := 0, old_width := 0, old_height := 0,
          base_width := 0, base_height := 0, inc_width := 0, inc_height := 0,
          max_width := 0, max_height := 0, min_width := 0, min_height := 0,
          min_aspect := 0, max_aspect := 0, border_width := 1, old_border_width := 0,
          tags := 1, isfixed := false, isfloating := false, isfullscreen := false,
          oldstate := false, monitor := 0 } true
        { flags := 48, base_width := 0, base_height := 0, width_inc := 0, height_inc := 0,
          max_width := 200, max_height := 100, min_width := 200, min_height := 100,
          min_aspect_x := 0, min_aspect_y := 0, max_aspect_x := 0, max_aspect_y := 0 }))
      30 40 640 480 false).1.2.2.1 = 200 ∧
    (applysizehints 1920 1080 20 6 true
      { screen_x := 0, screen_y := 0, screen_width := 1920, screen_height := 1080,
        window_x := 0, window_y := 0, window_width := 1000, window_height := 480 }
      (manage_floating false (updatesizehints
        { x := 0, y := 0, width := 30, height := 30,
          oldx := 0, oldy := 0, old_width := 0, old_height := 0,
          base_width := 0, base_height := 0, inc_width := 0, inc_height := 0,
          max_width := 0, max_height := 0, min_width := 0, min_height := 0,
          min_aspect := 0, max_aspect := 0, border_width := 1, old_border_width := 0,
          tags := 1, isfixed := false, isfloating := false, isfullscreen := false,
          oldstate := false, monitor := 0 } true
        { flags := 48, base_width := 0, base_height := 0, width_inc := 0, height_inc := 0,
          max_width := 200, max_height := 100, min_width := 200, min_height := 100,
          min_aspect_x := 0, min_aspect_y := 0, max_aspect_x := 0, max_aspect_y := 0 }))
      30 40 640 480 false).1.2.2.2 = 100 :=
  fixed_client_pinned
    { x := 0, y := 0, width := 30, height := 30,
      oldx := 0, oldy := 0, old_width := 0, old_height := 0,
      base_width := 0, base_height := 0, inc_width := 0, inc_height := 0,
      max_width := 0, max_height := 0, min_width := 0, min_height := 0,
      min_aspect := 0, max_aspect := 0, border_width := 1, old_border_width := 0,
      tags := 1, isfixed := false, isfloating := false, isfullscreen := false,
      oldstate := false, monitor := 0 }
    { flags := 48, base_width := 0, base_height := 0, width_inc := 0, height_inc := 0,
      max_width := 200, max_height := 100, min_width := 200, min_height := 100,
      min_aspect_x := 0, min_aspect_y := 0, max_aspect_x := 0, max_aspect_y := 0 }
    false
    { screen_x := 0, screen_y := 0, screen_width := 1920, screen_height := 1080,
      window_x := 0, window_y := 0, window_width := 1000, window_height := 480 }
    1920 1080 20 6 true 30 40 640 480 false
    (by decide) (by decide) rfl rfl rfl rfl

lemma ite_ne_self {a b : Nat} : (if a ≠ b then a else b) = a := by
  split <;> omega

/-- C8: after any `focus` call (with or without an explicit client), if
the selected monitor records a selected client then that client is
visible under the selected-tags bitmask of its monitor and sits at the
head of the focus-stack of the selected monitor; and when no visible
client exists (neither the given one nor any client of the focus-stack
of the selected monitor), no selected client is recorded. -/
theorem focus_spec (s : WMState) (copt : Option Nat) :
    (match (focus s copt).selected_client (focus s copt).selected_monitor with
     | some c => IsVisible (focus s copt) c = true ∧
         ((focus s copt).stack ((focus s copt).selected_monitor)).head? = some c
     | none => True)
    ∧ ((∀ c ∈ s.stack s.selected_monitor, IsVisible s c = false) →
       (∀ c, copt = some c → IsVisible s c = false) →
       (focus s copt).selected_client ((focus s copt).selected_monitor) = none) := by
  rcases copt with _ | c0
  · unfold focus
    cases hf : (s.stack s.selected_monitor).find? (fun t => IsVisible s t) with
    | none =>
      constructor
      · simp
      · intro _ _
        simp
    | some c =>
      have hvis : IsVisible s c = true := List.find?_some hf
      have hmem : c ∈ s.stack s.selected_monitor := List.mem_of_find?_eq_some hf
      constructor
      · simp only [detachstack, attachstack]
        rw [ite_ne_self]
        simp only [if_true]
        simp only [IsVisible] at hvis
        simp [IsVisible, hvis]
      · intro h1 _
        rw [h1 c hmem] at hvis
        cases hvis
  · unfold focus
    dsimp only
    by_cases hv : IsVisible s c0 = true
    · rw [if_pos hv]
      constructor
      · simp only [detachstack, attachstack]
        rw [ite_ne_self]
        simp only [if_true]
        have hv2 := hv
        simp only [IsVisible] at hv2
        simp [IsVisible, hv2]
      · intro _ h2
        rw [h2 c0 rfl] at hv
        cases hv
    · rw [if_neg hv]
      cases hf : (s.stack s.selected_monitor).find? (fun t => IsVisible s t) with
      | none =>
        constructor
        · simp
        · intro _ _
          simp
      | some c =>
        have hvis : IsVisible s c = true := List.find?_some hf
        have hmem : c ∈ s.stack s.selected_monitor := List.mem_of_find?_eq_some hf
        constructor
        · simp only [detachstack, attachstack]
          rw [ite_ne_self]
          simp only [if_true]
          simp only [IsVisible] at hvis
          simp [IsVisible, hvis]
        · intro h1 _
          rw [h1 c hmem] at hvis
          cases hvis

theorem focus_spec_witness :
    (match (focus
        { cap := 1, valid := fun _ => true, selected_monitor := 0,
          clients := fun _ => [7], stack := fun _ => [7],
          selected_client := fun _ => none, selected_tags := fun _ => 1,
          cmon := fun _ => 0, ctags := fun _ => 1, curgent := fun _ => false }
        none).selected_client
      ((focus
        { cap := 1, valid := fun _ => true, selected_monitor := 0,
          clients := fun _ => [7], stack := fun _ => [7],
          selected_client := fun _ => none, selected_tags := fun _ => 1,
          cmon := fun _ => 0, ctags := fun _ => 1, curgent := fun _ => false }
        none).selected_monitor) with
     | some c =>
       IsVisible (focus
        { cap := 1, valid := fun _ => true, selected_monitor := 0,
          clients := fun _ => [7], stack := fun _ => [7],
          selected_client := fun _ => none, selected_tags := fun _ => 1,
          cmon := fun _ => 0, ctags := fun _ => 1, curgent := fun _ => false }
        none) c = true ∧
       ((focus
        { cap := 1, valid := fun _ => true, selected_monitor := 0,
          clients := fun _ => [7], stack := fun _ => [7],
          selected_client := fun _ => none, selected_tags := fun _ => 1,
          cmon := fun _ => 0, ctags := fun _ => 1, curgent := fun _ => false }
        none).stack
        ((focus
          { cap := 1, valid := fun _ => true, selected_monitor := 0,
            clients := fun _ => [7], stack := fun _ => [7],
            selected_client := fun _ => none, selected_tags := fun _ => 1,
            cmon := fun _ => 0, ctags := fun _ => 1, curgent := fun _ => false }
          none).selected_monitor)).head? = some c
     | none => True) :=
  (focus_spec
    { cap := 1, valid := fun _ => true, selected_monitor := 0,
      clients := fun _ => [7], stack := fun _ => [7],
      selected_client := fun _ => none, selected_tags := fun _ => 1,
      cmon := fun _ => 0, ctags := fun _ => 1, curgent := fun _ => false }
    none).1

/-- C7: the claim says every client of a removed monitor is reattached
to a remaining valid monitor with its tags unchanged.  When the removed
monitor occupies the last slot of the monitor array (the ordinary case:
capacity 2 with two valid monitors and one screen left), the migration
computes `next_valid_monitor(client->monitor + 1)` with start index
equal to `monitor_capacity`, reading `all_monitors[monitor_capacity]`
one past the array.  In the flat-memory model the out-of-bounds slot
reads as valid, and the client is attached to slot index `cap`, outside
the monitor table, so it ends on no remaining valid monitor. -/
theorem updategeom_removal_reads_out_of_bounds :
    ((remove_one_excess
      { cap := 2, valid := fun i => decide (i ≤ 2), selected_monitor := 0,
        clients := fun i => if i = 1 then [5] else [],
        stack := fun i => if i = 1 then [5] else [],
        selected_client := fun _ => none, selected_tags := fun _ => 1,
        cmon := fun c => if c = 5 then 1 else 0,
        ctags := fun _ => 1, curgent := fun _ => false }).cmon 5
      = (remove_one_excess
      { cap := 2, valid := fun i => decide (i ≤ 2), selected_monitor := 0,
        clients := fun i => if i = 1 then [5] else [],
        stack := fun i => if i = 1 then [5] else [],
        selected_client := fun _ => none, selected_tags := fun _ => 1,
        cmon := fun c => if c = 5 then 1 else 0,
        ctags := fun _ => 1, curgent := fun _ => false }).cap) ∧
    ((remove_one_excess
      { cap := 2, valid := fun i => decide (i ≤ 2), selected_monitor := 0,
        clients := fun i => if i = 1 then [5] else [],
        stack := fun i => if i = 1 then [5] else [],
        selected_client := fun _ => none, selected_tags := fun _ => 1,
        cmon := fun c => if c = 5 then 1 else 0,
        ctags := fun _ => 1, curgent := fun _ => false }).clients 2 = [5]) := by
  constructor <;> decide

/-- C10 counterexample: with the default `gap_size = 6` and a tiled
(non-floating, border 2) client at (0,0) sized 100 by 100, entering and
leaving fullscreen does not restore the geometry: leaving fullscreen
writes the old rectangle through `resizeclient`, which re-applies the
gap offset for non-floating clients, yielding (6,6) sized 88 by 88. -/
theorem setfullscreen_roundtrip_counterexample :
    (setfullscreen 6
        { screen_x := 0, screen_y := 0, screen_width := 1000, screen_height := 500,
          window_x := 0, window_y := 0, window_width := 1000, window_height := 480 }
        (setfullscreen 6
          { screen_x := 0, screen_y := 0, screen_width := 1000, screen_height := 500,
            window_x := 0, window_y := 0, window_width := 1000, window_height := 480 }
          { x := 0, y := 0, width := 100, height := 100,
            oldx := 0, oldy := 0, old_width := 0, old_height := 0,
            base_width := 0, base_height := 0, inc_width := 0, inc_height := 0,
            max_width := 0, max_height := 0, min_width := 0, min_height := 0,
            min_aspect := 0, max_aspect := 0, border_width := 2, old_border_width := 0,
            tags := 1, isfixed := false, isfloating := false, isfullscreen := false,
            oldstate := false, monitor := 0 }
          true)
        false).x = 6 ∧
    ¬ ((setfullscreen 6
        { screen_x := 0, screen_y := 0, screen_width := 1000, screen_height := 500,
          window_x := 0, window_y := 0, window_width := 1000, window_height := 480 }
        (setfullscreen 6
          { screen_x := 0, screen_y := 0, screen_width := 1000, screen_height := 500,
            window_x := 0, window_y := 0, window_width := 1000, window_height := 480 }
          { x := 0, y := 0, width := 100, height := 100,
            oldx := 0, oldy := 0, old_width := 0, old_height := 0,
            base_width := 0, base_height := 0, inc_width := 0, inc_height := 0,
            max_width := 0, max_height := 0, min_width := 0, min_height := 0,
            min_aspect := 0, max_aspect := 0, border_width := 2, old_border_width := 0,
            tags := 1, isfixed := false, isfloating := false, isfullscreen := false,
            oldstate := false, monitor := 0 }
          true)
        false).x = 0 ∧
      (setfullscreen 6
        { screen_x := 0, screen_y := 0, screen_width := 1000, screen_height := 500,
          window_x := 0, window_y := 0, window_width := 1000, window_height := 480 }
        (setfullscreen 6
          { screen_x := 0, screen_y := 0, screen_width := 1000, screen_height := 500,
            window_x := 0, window_y := 0, window_width := 1000, window_height := 480 }
          { x := 0, y := 0, width := 100, height := 100,
            oldx := 0, oldy := 0, old_width := 0, old_height := 0,
            base_width := 0, base_height := 0, inc_width := 0, inc_height := 0,
            max_width := 0, max_height := 0, min_width := 0, min_height := 0,
            min_aspect := 0, max_aspect := 0, border_width := 2, old_border_width := 0,
            tags := 1, isfixed := false, isfloating := false, isfullscreen := false,
            oldstate := false, monitor := 0 }
          true)
        false).width = 100) := by
  constructor <;> decide

/-- C10 amended: `resizeclient` always snapshots the previous geometry
into the old fields, and the fullscreen round trip restores geometry,
floating flag and border width for clients that were floating before
entering fullscreen or when the gap is zero; for tiled clients with a
positive gap the restored rectangle is shifted by the gap and shrunk by
twice the gap (the flags and border width are still restored). -/
theorem resizeclient_snapshot_and_roundtrip (g : Int) (mon : MonitorG)
    (c c2 : Client) (x2 y2 w2 h2 : Int)
    (hnf : c.isfullscreen = false)
    (hok : c.isfloating = true ∨ g = 0) :
    ((resizeclient g c2 x2 y2 w2 h2).oldx = c2.x ∧
     (resizeclient g c2 x2 y2 w2 h2).oldy = c2.y ∧
     (resizeclient g c2 x2 y2 w2 h2).old_width = c2.width ∧
     (resizeclient g c2 x2 y2 w2 h2).old_height = c2.height) ∧
    ((setfullscreen g mon (setfullscreen g mon c true) false).x = c.x ∧
     (setfullscreen g mon (setfullscreen g mon c true) false).y = c.y ∧
     (setfullscreen g mon (setfullscreen g mon c true) false).width = c.width ∧
     (setfullscreen g mon (setfullscreen g mon c true) false).height = c.height ∧
     (setfullscreen g mon (setfullscreen g mon c true) false).isfloating = c.isfloating ∧
     (setfullscreen g mon (setfullscreen g mon c true) false).border_width = c.border_width) := by
  refine ⟨⟨rfl, rfl, rfl, rfl⟩, ?_⟩
  rcases hok with hfl | hg0
  · simp [setfullscreen, resizeclient, hnf, hfl]
  · simp [setfullscreen, resizeclient, hnf, hg0]

theorem resizeclient_snapshot_and_roundtrip_witness :
    ((resizeclient 6
        { x := 5, y := 5, width := 50, height := 50,
          oldx := 0, oldy := 0, old_width := 0, old_height := 0,
          base_width := 0, base_height := 0, inc_width := 0, inc_height := 0,
          max_width := 0, max_height := 0, min_width := 0, min_height := 0,
          min_aspect := 0, max_aspect := 0, border_width := 0, old_border_width := 0,
          tags := 1, isfixed := false, isfloating := false, isfullscreen := false,
          oldstate := false, monitor := 0 } 1 2 3 4).oldx = 5 ∧
     (resizeclient 6
        { x := 5, y := 5, width := 50, height := 50,
          oldx := 0, oldy := 0, old_width := 0, old_height := 0,
          base_width := 0, base_height := 0, inc_width := 0, inc_height := 0,
          max_width := 0, max_height := 0, min_width := 0, min_height := 0,
          min_aspect := 0, max_aspect := 0, border_width := 0, old_border_width := 0,
          tags := 1, isfixed := false, isfloating := false, isfullscreen := false,
          oldstate := false, monitor := 0 } 1 2 3 4).oldy = 5 ∧
     (resizeclient 6
        { x := 5, y := 5, width := 50, height := 50,
          oldx := 0, oldy := 0, old_width := 0, old_height := 0,
          base_width := 0, base_height := 0, inc_width := 0, inc_height := 0,
          max_width := 0, max_height := 0, min_width := 0, min_height := 0,
          min_aspect := 0, max_aspect := 0, border_width := 0, old_border_width := 0,
          tags := 1, isfixed := false, isfloating := false, isfullscreen := false,
          oldstate := false, monitor := 0 } 1 2 3 4).old_width = 50 ∧
     (resizeclient 6
        { x := 5, y := 5, width := 50, height := 50,
          oldx := 0, oldy := 0, old_width := 0, old_height := 0,
          base_width := 0, base_height := 0, inc_width := 0, inc_height := 0,
          max_width := 0, max_height := 0, min_width := 0, min_height := 0,
          min_aspect := 0, max_aspect := 0, border_width := 0, old_border_width := 0,
          tags := 1, isfixed := false, isfloating := false, isfullscreen := false,
          oldstate := false, monitor := 0 } 1 2 3 4).old_height = 50) ∧
    ((setfullscreen 6
        { screen_x := 0, screen_y := 0, screen_width := 1000, screen_height := 500,
          window_x := 0, window_y := 0, window_width := 1000, window_height := 480 }
        (setfullscreen 6
          { screen_x := 0, screen_y := 0, screen_width := 1000, screen_height := 500,
            window_x := 0, window_y := 0, window_width := 1000, window_height := 480 }
          { x := 7, y := 8, width := 90, height := 70,
            oldx := 0, oldy := 0, old_width := 0, old_height := 0,
            base_width := 0, base_height := 0, inc_width := 0, inc_height := 0,
            max_width := 0, max_height := 0, min_width := 0, min_height := 0,
            min_aspect := 0, max_aspect := 0, border_width := 2, old_border_width := 0,
            tags := 1, isfixed := false, isfloating := true, isfullscreen := false,
            oldstate := false, monitor := 0 } true) false).x = 7 ∧
     (setfullscreen 6
        { screen_x := 0, screen_y := 0, screen_width := 1000, screen_height := 500,
          window_x := 0, window_y := 0, window_width := 1000, window_height := 480 }
        (setfullscreen 6
          { screen_x := 0, screen_y := 0, screen_width := 1000, screen_height := 500,
            window_x := 0, window_y := 0, window_width := 1000, window_height := 480 }
          { x := 7, y := 8, width := 90, height := 70,
            oldx := 0, oldy := 0, old_width := 0, old_height := 0,
            base_width := 0, base_height := 0, inc_width := 0, inc_height := 0,
            max_width := 0, max_height := 0, min_width := 0, min_height := 0,
            min_aspect := 0, max_aspect := 0, border_width := 2, old_border_width := 0,
            tags := 1, isfixed := false, isfloating := true, isfullscreen := false,
            oldstate := false, monitor := 0 } true) false).y = 8 ∧
     (setfullscreen 6
        { screen_x := 0, screen_y := 0, screen_width := 1000, screen_height := 500,
          window_x := 0, window_y := 0, window_width := 1000, window_height := 480 }
        (setfullscreen 6
          { screen_x := 0, screen_y := 0, screen_width := 1000, screen_height := 500,
            window_x := 0, window_y := 0, window_width := 1000, window_height := 480 }
          { x := 7, y := 8, width := 90, height := 70,
            oldx := 0, oldy := 0, old_width := 0, old_height := 0,
            base_width := 0, base_height := 0, inc_width := 0, inc_height := 0,
            max_width := 0, max_height := 0, min_width := 0, min_height := 0,
            min_aspect := 0, max_aspect := 0, border_width := 2, old_border_width := 0,
            tags := 1, isfixed := false, isfloating := true, isfullscreen := false,
            oldstate := false, monitor := 0 } true) false).width = 90 ∧
     (setfullscreen 6
        { screen_x := 0, screen_y := 0, screen_width := 1000, screen_height := 500,
          window_x := 0, window_y := 0, window_width := 1000, window_height := 480 }
        (setfullscreen 6
          { screen_x := 0, screen_y := 0, screen_width := 1000, screen_height := 500,
            window_x := 0, window_y := 0, window_width := 1000, window_height := 480 }
          { x := 7, y := 8, width := 90, height := 70,
            oldx := 0, oldy := 0, old_width := 0, old_height := 0,
            base_width := 0, base_height := 0, inc_width := 0, inc_height := 0,
            max_width := 0, max_height := 0, min_width := 0, min_height := 0,
            min_aspect := 0, max_aspect := 0, border_width := 2, old_border_width := 0,
            tags := 1, isfixed := false, isfloating := true, isfullscreen := false,
            oldstate := false, monitor := 0 } true) false).height = 70 ∧
     (setfullscreen 6
        { screen_x := 0, screen_y := 0, screen_width := 1000, screen_height := 500,
          window_x := 0, window_y := 0, window_width := 1000, window_height := 480 }
        (setfullscreen 6
          { screen_x := 0, screen_y := 0, screen_width := 1000, screen_height := 500,
            window_x := 0, window_y := 0, window_width := 1000, window_height := 480 }
          { x := 7, y := 8, width := 90, height := 70,
            oldx := 0, oldy := 0, old_width := 0, old_height := 0,
            base_width := 0, base_height := 0, inc_width := 0, inc_height := 0,
            max_width := 0, max_height := 0, min_width := 0, min_height := 0,
            min_aspect := 0, max_aspect := 0, border_width := 2, old_border_width := 0,
            tags := 1, isfixed := false, isfloating := true, isfullscreen := false,
            oldstate := false, monitor := 0 } true) false).isfloating = true ∧
     (setfullscreen 6
        { screen_x := 0, screen_y := 0, screen_width := 1000, screen_height := 500,
          window_x := 0, window_y := 0, window_width := 1000, window_height := 480 }
        (setfullscreen 6
          { screen_x := 0, screen_y := 0, screen_width := 1000, screen_height := 500,
            window_x := 0, window_y := 0, window_width := 1000, window_height := 480 }
          { x := 7, y := 8, width := 90, height := 70,
            oldx := 0, oldy := 0, old_width := 0, old_height := 0,
            base_width := 0, base_height := 0, inc_width := 0, inc_height := 0,
            max_width := 0, max_height := 0, min_width := 0, min_height := 0,
            min_aspect := 0, max_aspect := 0, border_width := 2, old_border_width := 0,
            tags := 1, isfixed := false, isfloating := true, isfullscreen := false,
            oldstate := false, monitor := 0 } true) false).border_width = 2) :=
  resizeclient_snapshot_and_roundtrip 6
    { screen_x := 0, screen_y := 0, screen_width := 1000, screen_height := 500,
      window_x := 0, window_y := 0, window_width := 1000, window_height := 480 }
    { x := 7, y := 8, width := 90, height := 70,
      oldx := 0, oldy := 0, old_width := 0, old_height := 0,
      base_width := 0, base_height := 0, inc_width := 0, inc_height := 0,
      max_width := 0, max_height := 0, min_width := 0, min_height := 0,
      min_aspect := 0, max_aspect := 0, border_width := 2, old_border_width := 0,
      tags := 1, isfixed := false, isfloating := true, isfullscreen := false,
      oldstate := false, monitor := 0 }
    { x := 5, y := 5, width := 50, height := 50,
      oldx := 0, oldy := 0, old_width := 0, old_height := 0,
      base_width := 0, base_height := 0, inc_width := 0, inc_height := 0,
      max_width := 0, max_height := 0, min_width := 0, min_height := 0,
      min_aspect := 0, max_aspect := 0, border_width := 0, old_border_width := 0,
      tags := 1, isfixed := false, isfloating := false, isfullscreen := false,
      oldstate := false, monitor := 0 }
    1 2 3 4 rfl (Or.inl rfl)

lemma nvm_wrap (cap result : Nat) (h1 : 1 ≤ result) (hle : result ≤ cap) :
    (if result = cap then 0 else result) = result % cap := by
  split
  · subst result
    simp [Nat.mod_self]
  · rw [Nat.mod_eq_of_lt (by omega)]

lemma nvm_loop_finds (valid : Nat → Bool) (cap start : Nat) :
    ∀ (k fuel result : Nat), k < fuel → 1 ≤ result → result ≤ cap →
      result ≠ start →
      (∀ j, j < k → valid ((result + j) % cap) = false) →
      valid ((result + k) % cap) = true →
      (∀ j, j < k → ((result + j) % cap) + 1 ≠ start) →
      nvm_loop valid cap start fuel result = some ((result + k) % cap) := by
  intro k
  induction k with
  | zero =>
    intro fuel result hfuel h1 hle hne _ hvalid _
    obtain ⟨f, rfl⟩ : ∃ f, fuel = f + 1 := ⟨fuel - 1, by omega⟩
    have hcap0 : 0 < cap := by omega
    rw [Nat.add_zero] at hvalid
    unfold nvm_loop
    rw [if_neg hne]
    simp only [nvm_wrap cap result h1 hle, hvalid, if_true, Nat.add_zero]
  | succ n ih =>
    intro fuel result hfuel h1 hle hne hinv hvalid hnostart
    obtain ⟨f, rfl⟩ : ∃ f, fuel = f + 1 := ⟨fuel - 1, by omega⟩
    have hcap0 : 0 < cap := by omega
    have hv0 : valid (result % cap) = false := by
      have := hinv 0 (by omega)
      rwa [Nat.add_zero] at this
    have hmodlt : result % cap < cap := Nat.mod_lt _ hcap0
    have harith : ∀ j : Nat, (result % cap + 1 + j) % cap = (result + (1 + j)) % cap := by
      intro j
      rw [Nat.add_assoc, Nat.mod_add_mod]
    have hrec := ih f (result % cap + 1) (by omega) (by omega) (by omega)
      (by
        have := hnostart 0 (by omega)
        rwa [Nat.add_zero] at this)
      (by
        intro j hj
        rw [harith j, Nat.add_comm 1 j]
        exact hinv (j + 1) (by omega))
      (by
        rw [harith n, Nat.add_comm 1 n]
        exact hvalid)
      (by
        intro j hj
        rw [harith j, Nat.add_comm 1 j]
        exact hnostart (j + 1) (by omega))
    unfold nvm_loop
    rw [if_neg hne]
    simp only [nvm_wrap cap result h1 hle, hv0, Bool.false_eq_true, if_false]
    rw [hrec, harith n, Nat.add_comm 1 n]

/-- C9: `next_valid_monitor` terminates whenever at least one valid
monitor slot exists (in particular in the all-invalid-except-self case,
where the start slot is valid and is returned immediately), and then
returns the index of a valid slot inside the table, found by the
circular search; `cap + 1` loop iterations always suffice. -/
theorem next_valid_monitor_terminates (valid : Nat → Bool) (cap start : Nat)
    (hstart : start < cap) (hex : ∃ i, i < cap ∧ valid i = true) :
    (match next_valid_monitor valid cap start (cap + 1) with
     | some j => j < cap ∧ valid j = true
     | none => False) ∧
    (valid start = true → next_valid_monitor valid cap start (cap + 1) = some start) := by
  have hcap0 : 0 < cap := by omega
  by_cases hvs : valid start = true
  · refine ⟨?_, fun _ => ?_⟩
    · unfold next_valid_monitor
      rw [if_pos hvs]
      exact ⟨hstart, hvs⟩
    · unfold next_valid_monitor
      rw [if_pos hvs]
  · have hvs' : valid start = false := by
      revert hvs; cases valid start <;> simp
    obtain ⟨i, hi, hvi⟩ := hex
    have hins : i ≠ start := by
      intro h
      subst h
      rw [hvi] at hvs'
      cases hvs'
    have hs1lt : (start + 1) % cap < cap := Nat.mod_lt _ hcap0
    set k0 : Nat := if (start + 1) % cap ≤ i then i - (start + 1) % cap
      else cap + i - (start + 1) % cap with hk0def
    have hk0lt : k0 < cap := by
      rw [hk0def]; split <;> omega
    have hk0eq : (start + 1 + k0) % cap = i := by
      rw [Nat.add_mod (start + 1) k0 cap, Nat.mod_eq_of_lt hk0lt]
      rw [hk0def]
      split
      · rw [show (start + 1) % cap + (i - (start + 1) % cap) = i by omega]
        exact Nat.mod_eq_of_lt hi
      · rw [show (start + 1) % cap + (cap + i - (start + 1) % cap) = cap + i by omega]
        rw [Nat.add_mod_left, Nat.mod_eq_of_lt hi]
    have hlast : (start + 1 + (cap - 1)) % cap = start := by
      rw [show start + 1 + (cap - 1) = start + cap by omega]
      rw [Nat.add_mod_right, Nat.mod_eq_of_lt hstart]
    have hk0ne : k0 ≠ cap - 1 := by
      intro h
      rw [h, hlast] at hk0eq
      exact hins hk0eq.symm
    have hexk : ∃ k, valid ((start + 1 + k) % cap) = true := ⟨k0, by rw [hk0eq]; exact hvi⟩
    have hkmle : Nat.find hexk ≤ k0 := Nat.find_min' hexk (by rw [hk0eq]; exact hvi)
    have hkmval : valid ((start + 1 + Nat.find hexk) % cap) = true := Nat.find_spec hexk
    have hkmmin : ∀ j, j < Nat.find hexk → valid ((start + 1 + j) % cap) = false := by
      intro j hj
      have := Nat.find_min hexk hj
      revert this
      cases valid ((start + 1 + j) % cap) <;> simp
    have hnostart : ∀ j, j < Nat.find hexk → ((start + 1 + j) % cap) + 1 ≠ start := by
      intro j hj heq
      have hdm := Nat.div_add_mod (start + 1 + j) cap
      have hcd : cap ∣ j + 2 := by
        refine ⟨(start + 1 + j) / cap, ?_⟩
        generalize hq : cap * ((start + 1 + j) / cap) = t at hdm ⊢
        omega
      have hle := Nat.le_of_dvd (by omega) hcd
      omega
    have hloop := nvm_loop_finds valid cap start (Nat.find hexk) (cap + 1) (start + 1)
      (by omega) (by omega) (by omega) (by omega) hkmmin hkmval hnostart
    refine ⟨?_, fun h => absurd h hvs⟩
    unfold next_valid_monitor
    rw [if_neg hvs, hloop]
    exact ⟨Nat.mod_lt _ hcap0, hkmval⟩

theorem next_valid_monitor_terminates_witness :
    (match next_valid_monitor (fun i => i == 2) 3 0 4 with
     | some j => j < 3 ∧ (fun i : Nat => i == 2) j = true
     | none => False) ∧
    ((fun i : Nat => i == 2) 0 = true →
      next_valid_monitor (fun i => i == 2) 3 0 4 = some 0) :=
  next_valid_monitor_terminates (fun i => i == 2) 3 0 (by decide) ⟨2, by decide, by decide⟩

theorem tile_stack_heights_sum_witness :
    (stackHeights (tile 0 0 1000 500 55 0 (List.replicate 10 0))).sum ≤ 500 ∧
      (500 : Int) - (stackHeights (tile 0 0 1000 500 55 0 (List.replicate 10 0))).sum
        < ((10 : Nat) : Int) - 1 ∧
      ((10 : Nat) ≤ 3 → (500 : Int) -
        (stackHeights (tile 0 0 1000 500 55 0 (List.replicate 10 0))).sum ≤ 1) :=
  tile_stack_heights_sum 0 0 1000 500 55 10 (by decide) (by decide)

end Dwm
